import Mathlib

/-!
# autopin: window scan, PIN injection and confirm-button invocation

A shallow embedding of `src/autopin.cpp`.  The program talks to the Windows
UI Automation service; every call it makes is represented by the data the call
hands back (an `HRESULT` and, where the call has an out-parameter, the object it
stores), so that each `FAILED(...)` branch of the source is a branch here.
Every function returns, next to its result, the list of calls it performed and
of lines it printed (`Event`), in program order.
-/

namespace Autopin

/-! ## Platform types -/

abbrev DWORD := Nat
abbrev HWND := Nat
abbrev HRESULT := Int

/-- The `FAILED` test of the platform headers: the result code is negative. -/
def FAILED (hr : HRESULT) : Bool := decide (hr < 0)

/-- The `SUCCEEDED` test of the platform headers: the result code is not negative. -/
def SUCCEEDED (hr : HRESULT) : Bool := decide (0 ≤ hr)

def S_OK : HRESULT := 0
def E_FAIL : HRESULT := -2147467259

def WAIT_OBJECT_0 : DWORD := 0
def WAIT_TIMEOUT : DWORD := 258

/-- Time (ms) between searches for PIN entry window. -/
def RETRY_PIN_WINDOW_SEARCH_TIMEOUT : Nat := 30

/-- The three element properties the program builds conditions on. -/
inductive PROPERTYID where
  | UIA_AutomationIdPropertyId
  | UIA_NamePropertyId
  | UIA_IsPasswordPropertyId
  deriving DecidableEq, Repr

/-- The two control patterns the program asks for. -/
inductive PATTERNID where
  | UIA_InvokePatternId
  | UIA_ValuePatternId
  deriving DecidableEq, Repr

/-- The variants the program builds: a string (`CComVariant(v.first.c_str())`)
or a boolean (`CComVariant isPassword(true)`). -/
inductive VARIANT where
  | bstrVal (s : String)
  | boolVal (b : Bool)
  deriving DecidableEq, Repr

/-- A search condition: match everything, or property equals value. -/
inductive Condition where
  | trueCondition
  | property (id : PROPERTYID) (value : VARIANT)
  deriving DecidableEq, Repr

/-- One observable step: a platform call with what it handed back, or a line
written to `std::cerr` or to `std::wcout`.  Elements and roots are named by
their `runtimeId`. -/
inductive Event where
  | GetWindowThreadProcessId (hWnd : HWND) (processID : DWORD)
  | ElementFromHandle (hWnd : HWND) (hr : HRESULT)
  | CreatePropertyCondition (id : PROPERTYID) (value : VARIANT) (hr : HRESULT)
  | CreateTrueCondition (hr : HRESULT)
  | FindFirst (root : Nat) (condition : Condition) (hr : HRESULT) (found : Option Nat)
  | FindAll (root : Nat) (hr : HRESULT)
  | get_Length (root : Nat) (hr : HRESULT)
  | GetElement (root : Nat) (i : Nat) (hr : HRESULT)
  | GetCurrentPattern (element : Nat) (pattern : PATTERNID) (hr : HRESULT)
  | SetValue (element : Nat) (value : String) (hr : HRESULT)
  | Invoke (element : Nat) (hr : HRESULT)
  | cerr (line : String)
  | wcout (line : String)
  | CoInitialize (hr : HRESULT)
  | CoCreateInstance (hr : HRESULT)
  | CoUninitialize
  | WaitForSingleObject (timeout : Option Nat) (result : DWORD)
  | EnumWindows
  | CreateProcessW (commandLine : String) (created : Bool)
  | GetExitCodeProcess (exitCode : DWORD)
  deriving DecidableEq, Repr

/-- How a function ends: it returns a value, it calls through a null
`CComPtr` (line 110 of the source can), or the description of the environment
ends while the retry loop is still polling. -/
inductive Outcome (α : Type) where
  | returned (value : α)
  | nullDeref
  | blocked
  deriving DecidableEq, Repr

/-- The calls performed and how the function ended. -/
structure Run (α : Type) where
  trace : List Event
  outcome : Outcome α

/-! ## The accessibility tree as the program sees it -/

/-- A descendant element of a window: its identity, the three properties the
conditions test (the strings are what `get_CurrentAutomationId` and
`get_CurrentName` store), and what its pattern calls hand back.
`valuePatternObj` says that `GetCurrentPattern(UIA_ValuePatternId)` stored an
object that answers `IUIAutomationValuePattern`; `invokePatternObj` that
`GetCurrentPatternAs(UIA_InvokePatternId)` stored a non-null pattern. -/
structure Element where
  runtimeId : Nat
  automationId : String
  name : String
  isPassword : Bool
  valuePatternHr : HRESULT
  valuePatternObj : Bool
  setValueHr : HRESULT
  invokePatternHr : HRESULT
  invokePatternObj : Bool
  invokeHr : HRESULT
  deriving DecidableEq, Repr

/-- Property-equality test of the automation service. -/
def Element.satisfies (e : Element) : Condition → Bool
  | .trueCondition => true
  | .property .UIA_AutomationIdPropertyId (.bstrVal s) => e.automationId == s
  | .property .UIA_NamePropertyId (.bstrVal s) => e.name == s
  | .property .UIA_IsPasswordPropertyId (.boolVal b) => e.isPassword == b
  | .property _ _ => false

/-- The root element of a window (the dialog): its descendants in tree order
and the result codes of the searches rooted at it. -/
structure RootElement where
  runtimeId : Nat
  descendants : List Element
  findFirstHr : Condition → HRESULT
  findAllHr : HRESULT
  getLengthHr : HRESULT
  getElementHr : Nat → HRESULT

/-- The out-parameter of `FindFirst(TreeScope_Descendants, condition, &e)`:
the first descendant satisfying the condition, null when the call fails or
nothing matches. -/
def RootElement.FindFirst (r : RootElement) (c : Condition) : Option Element :=
  if FAILED (r.findFirstHr c) then none else r.descendants.find? (fun e => e.satisfies c)

/-- The automation provider: result codes of its condition factories. -/
structure IUIAutomation where
  createPropertyConditionHr : PROPERTYID → VARIANT → HRESULT
  createTrueConditionHr : HRESULT

/-- A top-level window: handle, the process id `GetWindowThreadProcessId`
stores, and the result of `ElementFromHandle`. -/
structure Window where
  hWnd : HWND
  processId : DWORD
  elementFromHandleHr : HRESULT
  root : RootElement

/-- Structure containing PIN entry parameters used with EnumWindows. -/
structure ProcessPinData where
  dwProcessId : DWORD
  bPinEntered : Bool
  strPin : String
  pAutomation : IUIAutomation

/-! ## OutputElementChildrenInfo (lines 23-61) -/

/-- The line printed for one element. -/
def elementLine (e : Element) : String :=
  "  id='" ++ e.automationId ++ "' name='" ++ e.name ++ "'"

/-- Body of the `for` loop at line 44, for index `i`. -/
def outputElement (pElement : RootElement) (i : Nat) : List Event :=
  if FAILED (pElement.getElementHr i) then
    [Event.GetElement pElement.runtimeId i (pElement.getElementHr i)]
  else
    match pElement.descendants[i]? with
    | some element =>
      [Event.GetElement pElement.runtimeId i (pElement.getElementHr i),
       Event.wcout (elementLine element)]
    | none => [Event.GetElement pElement.runtimeId i (pElement.getElementHr i)]

/-- Outputs id/name of all child elements of specified root element. -/
def OutputElementChildrenInfo (pAutomation : IUIAutomation) (pElement : RootElement) :
    List Event :=
  if FAILED pAutomation.createTrueConditionHr then
    [Event.CreateTrueCondition pAutomation.createTrueConditionHr]
  else if FAILED pElement.findAllHr then
    [Event.CreateTrueCondition pAutomation.createTrueConditionHr,
     Event.FindAll pElement.runtimeId pElement.findAllHr]
  else if FAILED pElement.getLengthHr then
    [Event.CreateTrueCondition pAutomation.createTrueConditionHr,
     Event.FindAll pElement.runtimeId pElement.findAllHr,
     Event.get_Length pElement.runtimeId pElement.getLengthHr]
  else
    [Event.CreateTrueCondition pAutomation.createTrueConditionHr,
     Event.FindAll pElement.runtimeId pElement.findAllHr,
     Event.get_Length pElement.runtimeId pElement.getLengthHr]
    ++ (List.range pElement.descendants.length).flatMap (outputElement pElement)

/-! ## InvokeDialogOkButton (lines 67-116) -/

/-- The list of possible conditions, in the order of the two `push_back`s. -/
def buttonConditions : List (String × PROPERTYID) :=
  [("OkButton", PROPERTYID.UIA_AutomationIdPropertyId), ("OK", PROPERTYID.UIA_NamePropertyId)]

/-- The `for(auto v : buttonConditions)` loop (lines 75-93): the calls made
and the value of `elementButton` when the loop ends. -/
def searchOkButton (pAutomation : IUIAutomation) (pDialog : RootElement) :
    List (String × PROPERTYID) → List Event × Option Element
  | [] => ([], none)
  | v :: rest =>
    let propVariant := VARIANT.bstrVal v.1
    let hrCondition := pAutomation.createPropertyConditionHr v.2 propVariant
    if FAILED hrCondition then
      let r := searchOkButton pAutomation pDialog rest
      (Event.CreatePropertyCondition v.2 propVariant hrCondition :: r.1, r.2)
    else
      let conditionButton := Condition.property v.2 propVariant
      let hrFind := pDialog.findFirstHr conditionButton
      let elementButton := pDialog.FindFirst conditionButton
      let calls := [Event.CreatePropertyCondition v.2 propVariant hrCondition,
        Event.FindFirst pDialog.runtimeId conditionButton hrFind
          (elementButton.map Element.runtimeId)]
      if FAILED hrFind then
        let r := searchOkButton pAutomation pDialog rest
        (calls ++ r.1, r.2)
      else
        match elementButton with
        | some e => (calls, some e)
        | none =>
          let r := searchOkButton pAutomation pDialog rest
          (calls ++ r.1, r.2)

/-- Lines 102-115: the pattern query and the invocation on the button found.
The pattern pointer is used unchecked at line 110: when the query succeeds
without storing a pattern, the call goes through a null pointer. -/
def invokeButton (elementButton : Element) : Run Bool :=
  if FAILED elementButton.invokePatternHr then
    ⟨[Event.GetCurrentPattern elementButton.runtimeId PATTERNID.UIA_InvokePatternId
        elementButton.invokePatternHr,
      Event.cerr "Failed get invoke pattern for OK button"], Outcome.returned false⟩
  else if !elementButton.invokePatternObj then
    ⟨[Event.GetCurrentPattern elementButton.runtimeId PATTERNID.UIA_InvokePatternId
        elementButton.invokePatternHr], Outcome.nullDeref⟩
  else if FAILED elementButton.invokeHr then
    ⟨[Event.GetCurrentPattern elementButton.runtimeId PATTERNID.UIA_InvokePatternId
        elementButton.invokePatternHr,
      Event.Invoke elementButton.runtimeId elementButton.invokeHr,
      Event.cerr "Failed to invok OK button"], Outcome.returned false⟩
  else
    ⟨[Event.GetCurrentPattern elementButton.runtimeId PATTERNID.UIA_InvokePatternId
        elementButton.invokePatternHr,
      Event.Invoke elementButton.runtimeId elementButton.invokeHr], Outcome.returned true⟩

/-- Invoke the OK button on the specified dialog element.
Return if invocation was successfull. -/
def InvokeDialogOkButton (pAutomation : IUIAutomation) (pDialog : RootElement) : Run Bool :=
  let search := searchOkButton pAutomation pDialog buttonConditions
  match search.2 with
  | none =>
    ⟨search.1
      ++ [Event.cerr "Failed to find OK button (see list of dialog elements below):"]
      ++ OutputElementChildrenInfo pAutomation pDialog, Outcome.returned false⟩
  | some elementButton =>
    ⟨search.1 ++ (invokeButton elementButton).trace, (invokeButton elementButton).outcome⟩

/-! ## FindPinWindowProc (lines 123-181) and the enumeration that drives it -/

/-- A run that also carries the `ProcessPinData` behind `lParam`, as it stands
when the function ends. -/
structure CallbackRun (α : Type) where
  data : ProcessPinData
  trace : List Event
  outcome : Outcome α

/-- Condition for password property (lines 141-145). -/
def passwordCondition : Condition :=
  Condition.property PROPERTYID.UIA_IsPasswordPropertyId (VARIANT.boolVal true)

/-- What the caller of `InvokeDialogOkButton` at line 178 does with its
outcome: the returned value is dropped and `FALSE` is returned. -/
def afterInvoke : Outcome Bool → Outcome Bool
  | Outcome.returned _ => Outcome.returned false
  | Outcome.nullDeref => Outcome.nullDeref
  | Outcome.blocked => Outcome.blocked

/-- EnumWindows callback function that checks if window belongs to spawned
process and then searches for first password field element and inputs PIN if
found.  `returned true` is `TRUE` (continue), `returned false` is `FALSE`. -/
def FindPinWindowProc (hWnd : Window) (data : ProcessPinData) : CallbackRun Bool :=
  let t1 := [Event.GetWindowThreadProcessId hWnd.hWnd hWnd.processId]
  if hWnd.processId ≠ data.dwProcessId then ⟨data, t1, Outcome.returned true⟩
  else
    let t2 := t1 ++ [Event.ElementFromHandle hWnd.hWnd hWnd.elementFromHandleHr]
    if FAILED hWnd.elementFromHandleHr then ⟨data, t2, Outcome.returned true⟩
    else
      let elementRoot := hWnd.root
      let isPassword := VARIANT.boolVal true
      let hrCondition :=
        data.pAutomation.createPropertyConditionHr PROPERTYID.UIA_IsPasswordPropertyId isPassword
      let t3 := t2 ++ [Event.CreatePropertyCondition PROPERTYID.UIA_IsPasswordPropertyId
        isPassword hrCondition]
      if FAILED hrCondition then ⟨data, t3, Outcome.returned true⟩
      else
        let conditionPassword := passwordCondition
        let t4 := t3 ++ [Event.FindFirst elementRoot.runtimeId conditionPassword
          (elementRoot.findFirstHr conditionPassword)
          ((elementRoot.FindFirst conditionPassword).map Element.runtimeId)]
        if FAILED (elementRoot.findFirstHr conditionPassword) then
          ⟨data, t4, Outcome.returned true⟩
        else
          match elementRoot.FindFirst conditionPassword with
          | none => ⟨data, t4, Outcome.returned true⟩
          | some elementPassword =>
            let t5 := t4 ++ [Event.GetCurrentPattern elementPassword.runtimeId
              PATTERNID.UIA_ValuePatternId elementPassword.valuePatternHr]
            if FAILED elementPassword.valuePatternHr then ⟨data, t5, Outcome.returned true⟩
            else if !elementPassword.valuePatternObj then ⟨data, t5, Outcome.returned true⟩
            else
              let t6 := t5 ++ [Event.SetValue elementPassword.runtimeId data.strPin
                elementPassword.setValueHr]
              if FAILED elementPassword.setValueHr then ⟨data, t6, Outcome.returned true⟩
              else
                let entered : ProcessPinData := { data with bPinEntered := true }
                let ok := InvokeDialogOkButton entered.pAutomation elementRoot
                ⟨entered, t6 ++ ok.trace, afterInvoke ok.outcome⟩

/-- The platform enumeration with `FindPinWindowProc` as callback: the
callback runs on each top-level window in turn until it returns `FALSE`. -/
def EnumWindows (data : ProcessPinData) : List Window → CallbackRun Unit
  | [] => ⟨data, [], Outcome.returned ()⟩
  | w :: ws =>
    let r := FindPinWindowProc w data
    match r.outcome with
    | Outcome.returned true =>
      let r2 := EnumWindows r.data ws
      ⟨r2.data, r.trace ++ r2.trace, r2.outcome⟩
    | Outcome.returned false => ⟨r.data, r.trace, Outcome.returned ()⟩
    | Outcome.nullDeref => ⟨r.data, r.trace, Outcome.nullDeref⟩
    | Outcome.blocked => ⟨r.data, r.trace, Outcome.blocked⟩

/-! ## EnterPINForProcess (lines 187-225) -/

/-- One evaluation of the loop condition that reaches the wait: what
`WaitForSingleObject(hProcess, 30)` returns and the top-level windows on the
desktop at that moment. -/
structure Tick where
  waitResult : DWORD
  windows : List Window

/-- What the process handle stands for: the id `GetProcessId` reports and the
successive polls. -/
structure Process where
  processId : DWORD
  ticks : List Tick

/-- Result codes of COM initialisation and of the provider creation, and the
provider created. -/
structure Platform where
  coInitializeHr : HRESULT
  coCreateInstanceHr : HRESULT
  automation : IUIAutomation

/-- The `while` loop at lines 206-208.  The flag is tested first; the wait
is only performed when the flag is false. -/
def retryLoop (data : ProcessPinData) : List Tick → CallbackRun Unit
  | [] =>
    if data.bPinEntered then ⟨data, [], Outcome.returned ()⟩ else ⟨data, [], Outcome.blocked⟩
  | t :: rest =>
    if data.bPinEntered then ⟨data, [], Outcome.returned ()⟩
    else if t.waitResult = WAIT_OBJECT_0 then
      ⟨data, [Event.WaitForSingleObject (some RETRY_PIN_WINDOW_SEARCH_TIMEOUT) t.waitResult],
        Outcome.returned ()⟩
    else
      let scan := EnumWindows data t.windows
      let calls := Event.WaitForSingleObject (some RETRY_PIN_WINDOW_SEARCH_TIMEOUT) t.waitResult
        :: Event.EnumWindows :: scan.trace
      match scan.outcome with
      | Outcome.returned _ =>
        let r := retryLoop scan.data rest
        ⟨r.data, calls ++ r.trace, r.outcome⟩
      | Outcome.nullDeref => ⟨scan.data, calls, Outcome.nullDeref⟩
      | Outcome.blocked => ⟨scan.data, calls, Outcome.blocked⟩

/-- The `return data.bPinEntered` at line 224, reached when the loop is left. -/
def afterLoop (r : CallbackRun Unit) : Outcome Bool :=
  match r.outcome with
  | Outcome.returned _ => Outcome.returned r.data.bPinEntered
  | Outcome.nullDeref => Outcome.nullDeref
  | Outcome.blocked => Outcome.blocked

/-- The session as lines 190-193 and 203 set it up. -/
def initialData (os : Platform) (hProcess : Process) (strPin : String) : ProcessPinData :=
  { dwProcessId := hProcess.processId, bPinEntered := false, strPin := strPin,
    pAutomation := os.automation }

/-- Lines 214-218, reached when the loop is left. -/
def releaseCalls : Outcome Unit → List Event
  | Outcome.returned _ => [Event.CoUninitialize]
  | Outcome.nullDeref => []
  | Outcome.blocked => []

/-- Enter the specified PIN into any dialog belonging to the specified process.
Returns if the PIN was successfully entered. -/
def EnterPINForProcess (os : Platform) (hProcess : Process) (strPin : String) : Run Bool :=
  if SUCCEEDED os.coInitializeHr then
    if SUCCEEDED os.coCreateInstanceHr then
      let r := retryLoop (initialData os hProcess strPin) hProcess.ticks
      ⟨Event.CoInitialize os.coInitializeHr :: Event.CoCreateInstance os.coCreateInstanceHr
        :: r.trace ++ releaseCalls r.outcome, afterLoop r⟩
    else
      ⟨[Event.CoInitialize os.coInitializeHr, Event.CoCreateInstance os.coCreateInstanceHr,
        Event.cerr "Failed to create IUIAutomation interface", Event.CoUninitialize],
        Outcome.returned false⟩
  else
    ⟨[Event.CoInitialize os.coInitializeHr, Event.cerr "Failed to initialize COM"],
      Outcome.returned false⟩

/-! ## wmain (lines 227-286) -/

/-- The conversion of the `DWORD` exit code to the `int` that `wmain` returns. -/
def toInt32 (d : DWORD) : Int :=
  if d % 4294967296 < 2147483648 then ((d % 4294967296 : Nat) : Int)
  else ((d % 4294967296 : Nat) : Int) - 4294967296

/-- The environment of one execution: the arguments, whether `CreateProcessW`
succeeds and the error code otherwise, the spawned process, whether the final
unbounded wait returns, and the exit code `GetExitCodeProcess` stores. -/
structure MainEnv where
  wargv : List String
  os : Platform
  bCreated : Bool
  lastError : DWORD
  process : Process
  exits : Bool
  exitCode : DWORD

/-- Command line from the arguments after the PIN (lines 239-243). -/
def commandLine (wargv : List String) : String :=
  String.join ((wargv.drop 2).map fun a => "\"" ++ a ++ "\" ")

/-- The entry point. -/
def wmain (env : MainEnv) : Run Int :=
  if env.wargv.length < 3 then
    ⟨[Event.cerr "Usage: autopin [pin] [command]"], Outcome.returned 1⟩
  else
    let signPin := env.wargv.getD 1 ""
    let strCmdLine := commandLine env.wargv
    if !env.bCreated then
      ⟨[Event.CreateProcessW strCmdLine false,
        Event.cerr ("Could not create process: " ++ toString env.lastError)],
        Outcome.returned 1⟩
    else
      let pin := EnterPINForProcess env.os env.process signPin
      let calls := Event.CreateProcessW strCmdLine true :: pin.trace
      match pin.outcome with
      | Outcome.returned _ =>
        if env.exits then
          ⟨calls ++ [Event.WaitForSingleObject none WAIT_OBJECT_0,
            Event.GetExitCodeProcess env.exitCode], Outcome.returned (toInt32 env.exitCode)⟩
        else ⟨calls, Outcome.blocked⟩
      | Outcome.nullDeref => ⟨calls, Outcome.nullDeref⟩
      | Outcome.blocked => ⟨calls, Outcome.blocked⟩


/-! ## Vocabulary of the statements -/

/-- A value-set that succeeded and wrote `pin`. -/
def Event.injects (pin : String) : Event → Bool
  | Event.SetValue _ value hr => value == pin && !FAILED hr
  | _ => false

/-- A value-set attempt, successful or not. -/
def Event.isSetValue : Event → Bool
  | Event.SetValue _ _ _ => true
  | _ => false

/-- A descendant search (`FindFirst`). -/
def Event.isFindFirst : Event → Bool
  | Event.FindFirst _ _ _ _ => true
  | _ => false

/-- A value-set that succeeded, whatever it wrote. -/
def Event.isSetValueOk : Event → Bool
  | Event.SetValue _ _ hr => !FAILED hr
  | _ => false

/-- A step of the confirm stage (`InvokeDialogOkButton` and the listing it
prints): every call and every line other than the owner query, the root
resolution, the password condition and search, the value-pattern query and the
value-set. -/
def Event.isConfirmCall : Event → Bool
  | Event.GetWindowThreadProcessId _ _ => false
  | Event.ElementFromHandle _ _ => false
  | Event.CreatePropertyCondition id _ _ => id != PROPERTYID.UIA_IsPasswordPropertyId
  | Event.FindFirst _ c _ _ => c != passwordCondition
  | Event.GetCurrentPattern _ p _ => p != PATTERNID.UIA_ValuePatternId
  | Event.SetValue _ _ _ => false
  | _ => true

/-- The text of a printed line, whichever stream it goes to. -/
def Event.printed? : Event → Option String
  | Event.cerr line => some line
  | Event.wcout line => some line
  | _ => none

/-- The text of a line printed on the error stream. -/
def Event.cerr? : Event → Option String
  | Event.cerr line => some line
  | _ => none

/-- Every step of lines 127-172 succeeds on the window: it is owned by the
target, the root element is resolved, the password condition is created, the
search succeeds and finds `e`, `e` hands out its value pattern, and the
value-set on it succeeds. -/
def Qualifies (data : ProcessPinData) (w : Window) (e : Element) : Prop :=
  w.processId = data.dwProcessId ∧
  FAILED w.elementFromHandleHr = false ∧
  FAILED (data.pAutomation.createPropertyConditionHr PROPERTYID.UIA_IsPasswordPropertyId
    (VARIANT.boolVal true)) = false ∧
  FAILED (w.root.findFirstHr passwordCondition) = false ∧
  w.root.descendants.find? (fun x => x.satisfies passwordCondition) = some e ∧
  FAILED e.valuePatternHr = false ∧
  e.valuePatternObj = true ∧
  FAILED e.setValueHr = false

instance (data : ProcessPinData) (w : Window) (e : Element) : Decidable (Qualifies data w e) := by
  unfold Qualifies
  infer_instance

/-- The session after a stretch of execution with trace `tr`: the flag is set
exactly when it was set before or `tr` holds a successful value-set of the PIN. -/
def entered (data : ProcessPinData) (tr : List Event) : ProcessPinData :=
  { data with bPinEntered := data.bPinEntered || tr.any (Event.injects data.strPin) }

/-- The session with the flag set (line 175). -/
def markEntered (data : ProcessPinData) : ProcessPinData :=
  { data with bPinEntered := true }

/-- The outcome with the returned value dropped. -/
def Outcome.discard {α : Type} : Outcome α → Outcome Unit
  | Outcome.returned _ => Outcome.returned ()
  | Outcome.nullDeref => Outcome.nullDeref
  | Outcome.blocked => Outcome.blocked

/-- The calls the callback makes on the windows of `ws`, one after the other. -/
def skippedCalls (data : ProcessPinData) (ws : List Window) : List Event :=
  ws.flatMap fun w => (FindPinWindowProc w data).trace

/-- The wait of one evaluation of the loop condition. -/
def waitCall (t : Tick) : Event :=
  Event.WaitForSingleObject (some RETRY_PIN_WINDOW_SEARCH_TIMEOUT) t.waitResult

/-- The calls of the loop over polls in which the process is alive and every
window is skipped. -/
def idleCalls (data : ProcessPinData) (ts : List Tick) : List Event :=
  ts.flatMap fun t => waitCall t :: Event.EnumWindows :: skippedCalls data t.windows

/-- The calls of lines 127-172 on a qualifying window, up to and including
the value-set. -/
def injectionCalls (data : ProcessPinData) (w : Window) (e : Element) : List Event :=
  [Event.GetWindowThreadProcessId w.hWnd w.processId,
   Event.ElementFromHandle w.hWnd w.elementFromHandleHr,
   Event.CreatePropertyCondition PROPERTYID.UIA_IsPasswordPropertyId (VARIANT.boolVal true)
     (data.pAutomation.createPropertyConditionHr PROPERTYID.UIA_IsPasswordPropertyId
       (VARIANT.boolVal true)),
   Event.FindFirst w.root.runtimeId passwordCondition (w.root.findFirstHr passwordCondition)
     (some e.runtimeId),
   Event.GetCurrentPattern e.runtimeId PATTERNID.UIA_ValuePatternId e.valuePatternHr,
   Event.SetValue e.runtimeId data.strPin e.setValueHr]

/-- The header printed on the error stream when no OK button is found. -/
def okButtonNotFound : String := "Failed to find OK button (see list of dialog elements below):"

/-- The lines for the elements of `es`, numbered from `i` on, whose retrieval
(`GetElement`) succeeds, in order. -/
def listing (getElementHr : Nat → HRESULT) : Nat → List Element → List String
  | _, [] => []
  | i, e :: es =>
    if FAILED (getElementHr i) then listing getElementHr (i + 1) es
    else elementLine e :: listing getElementHr (i + 1) es

/-- A provider whose condition factories succeed. -/
def okProvider : IUIAutomation := ⟨fun _ _ => S_OK, S_OK⟩

/-- A password edit field that hands out its value pattern. -/
def pinEdit : Element := ⟨1, "PinEdit", "PIN", true, S_OK, true, S_OK, S_OK, false, S_OK⟩

/-- An invocable button whose automation id is that of the first candidate. -/
def okButton : Element := ⟨2, "OkButton", "Confirm", false, S_OK, false, S_OK, S_OK, true, S_OK⟩

/-- A static label: no candidate condition matches it. -/
def promptLabel : Element := ⟨4, "Prompt", "Enter PIN", false, S_OK, false, S_OK, S_OK, false, S_OK⟩

/-- A root element with the given descendants, every search on it succeeding. -/
def okRoot (runtimeId : Nat) (descendants : List Element) : RootElement :=
  ⟨runtimeId, descendants, fun _ => S_OK, S_OK, S_OK, fun _ => S_OK⟩

/-- The PIN dialog of the target (process 7): a password field and an OK button. -/
def pinWindow : Window := ⟨100, 7, S_OK, okRoot 10 [pinEdit, okButton]⟩

/-- A window of another process (process 9) that also has a password field. -/
def otherWindow : Window := ⟨200, 9, S_OK, okRoot 20 [pinEdit]⟩

/-- A window of the target without a password field. -/
def plainWindow : Window := ⟨300, 7, S_OK, okRoot 30 [promptLabel]⟩

/-- The session for target process 7 and PIN 1234, nothing entered yet. -/
def session : ProcessPinData := ⟨7, false, "1234", okProvider⟩

/-- A platform on which COM and the provider initialise. -/
def okPlatform : Platform := ⟨S_OK, S_OK, okProvider⟩

/-- The target exits at the third poll; before that only foreign windows and
a target window without a password field are on the desktop. -/
def exitingProcess : Process :=
  ⟨7, [⟨WAIT_TIMEOUT, [otherWindow]⟩, ⟨WAIT_TIMEOUT, [otherWindow, plainWindow]⟩,
       ⟨WAIT_OBJECT_0, [pinWindow]⟩]⟩

/-- A second password field, in another dialog of the target. -/
def secondPinEdit : Element := ⟨5, "PinEdit", "PIN", true, S_OK, true, S_OK, S_OK, false, S_OK⟩

/-- A second PIN dialog of the target (process 7). -/
def secondPinWindow : Window := ⟨101, 7, S_OK, okRoot 11 [secondPinEdit, okButton]⟩

/-- The session of process 7 with the flag already set. -/
def enteredSession : ProcessPinData := ⟨7, true, "1234", okProvider⟩

/-- The target shows its PIN dialog at the second poll and keeps running. -/
def promptingProcess : Process :=
  ⟨7, [⟨WAIT_TIMEOUT, [otherWindow, plainWindow]⟩, ⟨WAIT_TIMEOUT, [otherWindow, pinWindow]⟩,
       ⟨WAIT_TIMEOUT, [pinWindow]⟩]⟩

/-- A password field that does not hand out a value pattern: the query
succeeds and stores nothing. -/
def lockedPinEdit : Element := ⟨6, "PinEdit", "PIN", true, S_OK, false, S_OK, S_OK, false, S_OK⟩

/-- A dialog of the target whose password field cannot be set. -/
def lockedPinWindow : Window := ⟨102, 7, S_OK, okRoot 12 [lockedPinEdit, okButton]⟩

/-- A PIN dialog of the target without any button. -/
def bareWindow : Window := ⟨103, 7, S_OK, okRoot 13 [promptLabel, pinEdit]⟩

/-- The target shows a PIN dialog without a confirm control at the first poll. -/
def bareProcess : Process := ⟨7, [⟨WAIT_TIMEOUT, [otherWindow, bareWindow]⟩]⟩

/-- An element answering both candidate conditions that is not invocable:
the invoke-pattern query succeeds and stores no pattern. -/
def staticOk : Element := ⟨7, "OkButton", "OK", false, S_OK, false, S_OK, S_OK, false, S_OK⟩

/-- A PIN dialog of the target whose OK element is not invocable. -/
def staticOkWindow : Window := ⟨104, 7, S_OK, okRoot 40 [pinEdit, staticOk]⟩

/-- A dialog without any OK button on which `FindAll` fails. -/
def unlistableRoot : RootElement :=
  ⟨50, [promptLabel, pinEdit], fun _ => S_OK, E_FAIL, S_OK, fun _ => S_OK⟩

/-- An execution that launches the prompting target, whose exit code is 3. -/
def promptingRun : MainEnv :=
  ⟨["autopin", "1234", "signtool", "sign"], okPlatform, true, 0, promptingProcess, true, 3⟩

/-- An execution in which the process cannot be created (error code 2). -/
def failedLaunch : MainEnv :=
  ⟨["autopin", "1234", "nosuchtool"], okPlatform, false, 2, ⟨0, []⟩, false, 0⟩

/-- A PIN dialog of the target with two password fields: the first hands out
no value pattern, the second takes the value. -/
def twoFieldWindow : Window := ⟨105, 7, S_OK, okRoot 14 [lockedPinEdit, pinEdit, okButton]⟩

/-- A button with the first candidate's automation id whose invoke-pattern
query fails. -/
def brokenButton : Element := ⟨8, "OkButton", "OK", false, S_OK, false, S_OK, E_FAIL, false, S_OK⟩

theorem invokeButton_all_not_SetValue (b : Element) :
    (invokeButton b).trace.all (fun ev => !ev.isSetValue) = true := by
  unfold invokeButton
  split_ifs <;> simp [Event.isSetValue]

theorem outputElement_all_not_SetValue (r : RootElement) (i : Nat) :
    (outputElement r i).all (fun ev => !ev.isSetValue) = true := by
  unfold outputElement
  split_ifs
  · simp [Event.isSetValue]
  · split <;> simp [Event.isSetValue]

theorem OutputElementChildrenInfo_all_not_SetValue (a : IUIAutomation) (r : RootElement) :
    (OutputElementChildrenInfo a r).all (fun ev => !ev.isSetValue) = true := by
  unfold OutputElementChildrenInfo
  split_ifs
  · simp [Event.isSetValue]
  · simp [Event.isSetValue]
  · simp [Event.isSetValue]
  · rw [List.all_append]
    simp only [Bool.and_eq_true]
    refine ⟨by simp [Event.isSetValue], ?_⟩
    rw [List.all_eq_true]
    intro ev hev
    rw [List.mem_flatMap] at hev
    obtain ⟨i, _, hi⟩ := hev
    exact (List.all_eq_true.mp (outputElement_all_not_SetValue r i)) ev hi

theorem searchOkButton_all_not_SetValue (a : IUIAutomation) (r : RootElement)
    (cs : List (String × PROPERTYID)) :
    (searchOkButton a r cs).1.all (fun ev => !ev.isSetValue) = true := by
  induction cs with
  | nil => simp [searchOkButton]
  | cons v rest ih =>
    unfold searchOkButton
    simp only
    split_ifs
    · simpa [Event.isSetValue] using ih
    · simpa [Event.isSetValue] using ih
    · split
      · simp [Event.isSetValue]
      · simpa [Event.isSetValue] using ih

theorem InvokeDialogOkButton_all_not_SetValue (a : IUIAutomation) (r : RootElement) :
    (InvokeDialogOkButton a r).trace.all (fun ev => !ev.isSetValue) = true := by
  unfold InvokeDialogOkButton
  simp only
  split
  · simp only [List.all_append, Bool.and_eq_true]
    exact ⟨⟨searchOkButton_all_not_SetValue a r _, by simp [Event.isSetValue]⟩,
      OutputElementChildrenInfo_all_not_SetValue a r⟩
  · simp only [List.all_append, Bool.and_eq_true]
    exact ⟨searchOkButton_all_not_SetValue a r _, invokeButton_all_not_SetValue _⟩

/-! ## Lemmas on the callback -/

theorem FindPinWindowProc_of_qualifies {data : ProcessPinData} {w : Window} {e : Element}
    (h : Qualifies data w e) :
    FindPinWindowProc w data =
      ⟨markEntered data,
       injectionCalls data w e ++ (InvokeDialogOkButton data.pAutomation w.root).trace,
       afterInvoke (InvokeDialogOkButton data.pAutomation w.root).outcome⟩ := by
  obtain ⟨h1, h2, h3, h4, h5, h6, h7, h8⟩ := h
  simp [FindPinWindowProc, injectionCalls, markEntered, RootElement.FindFirst,
    h1, h2, h3, h4, h5, h6, h7, h8]

theorem FindPinWindowProc_of_not_qualifies {data : ProcessPinData} {w : Window}
    (h : ∀ e, ¬ Qualifies data w e) :
    (FindPinWindowProc w data).outcome = Outcome.returned true ∧
    (FindPinWindowProc w data).data = data ∧
    (FindPinWindowProc w data).trace.all (fun ev => !ev.isSetValueOk && !ev.isConfirmCall) = true := by
  unfold FindPinWindowProc
  simp only
  split_ifs with h1 h2 h3 h4
  all_goals try (simp [Event.isSetValueOk, Event.isConfirmCall, passwordCondition]; done)
  · split
    · simp [Event.isSetValueOk, Event.isConfirmCall, passwordCondition]
    · rename_i e he
      split_ifs with h5 h6 h7
      · simp [Event.isSetValueOk, Event.isConfirmCall, passwordCondition]
      · simp [Event.isSetValueOk, Event.isConfirmCall, passwordCondition]
      · simp [Event.isSetValueOk, Event.isConfirmCall, passwordCondition, h7]
      · exfalso
        apply h e
        simp only [RootElement.FindFirst] at he
        simp only [Bool.not_eq_true] at h2 h3 h4 h5 h7
        simp only [h4] at he
        simp only [ne_eq, not_not] at h1
        simp at h6
        exact ⟨h1, h2, h3, h4, by simpa using he, h5, h6, h7⟩

theorem any_injects_of_all_not_ok {tr : List Event} (pin : String)
    (h : tr.all (fun ev => !ev.isSetValueOk && !ev.isConfirmCall) = true) :
    tr.any (Event.injects pin) = false := by
  rw [Bool.eq_false_iff]
  intro hany
  rw [List.any_eq_true] at hany
  obtain ⟨ev, hev, hinj⟩ := hany
  have h1 := List.all_eq_true.mp h ev hev
  cases ev <;> simp [Event.injects, Event.isSetValueOk] at hinj h1
  simp [hinj.2] at h1

theorem injectionCalls_any_injects {data : ProcessPinData} {w : Window} {e : Element}
    (h : Qualifies data w e) :
    (injectionCalls data w e).any (Event.injects data.strPin) = true := by
  simp [injectionCalls, Event.injects, h.2.2.2.2.2.2.2]

theorem entered_entered (data : ProcessPinData) (t1 t2 : List Event) :
    entered (entered data t1) t2 = entered data (t1 ++ t2) := by
  simp [entered, Bool.or_assoc]

theorem entered_of_any_false {data : ProcessPinData} {tr : List Event}
    (h : tr.any (Event.injects data.strPin) = false) : entered data tr = data := by
  simp [entered, h]

theorem FindPinWindowProc_data (w : Window) (data : ProcessPinData) :
    (FindPinWindowProc w data).data = entered data (FindPinWindowProc w data).trace := by
  by_cases h : ∃ e, Qualifies data w e
  · obtain ⟨e, he⟩ := h
    rw [FindPinWindowProc_of_qualifies he]
    simp [entered, markEntered, injectionCalls_any_injects he]
  · have h2 : ∀ e, ¬ Qualifies data w e := fun e he => h ⟨e, he⟩
    obtain ⟨_, hd, ht⟩ := FindPinWindowProc_of_not_qualifies h2
    rw [entered_of_any_false (any_injects_of_all_not_ok _ ht)]
    exact hd

/-! ## Lemmas on the enumeration -/

theorem EnumWindows_data (data : ProcessPinData) (ws : List Window) :
    (EnumWindows data ws).data = entered data (EnumWindows data ws).trace := by
  induction ws generalizing data with
  | nil => simp [EnumWindows, entered]
  | cons w ws ih =>
    unfold EnumWindows
    simp only
    split
    · simp only
      rw [ih, FindPinWindowProc_data, entered_entered]
    · exact FindPinWindowProc_data w data
    · exact FindPinWindowProc_data w data
    · exact FindPinWindowProc_data w data

theorem EnumWindows_append_of_none_qualifies {data : ProcessPinData} {pre : List Window}
    (rest : List Window) (h : ∀ p ∈ pre, ∀ e, ¬ Qualifies data p e) :
    EnumWindows data (pre ++ rest) =
      ⟨(EnumWindows data rest).data, skippedCalls data pre ++ (EnumWindows data rest).trace,
       (EnumWindows data rest).outcome⟩ := by
  induction pre with
  | nil => simp [skippedCalls]
  | cons p pre ih =>
    have hp := FindPinWindowProc_of_not_qualifies (h p (List.mem_cons_self _ _))
    have ih2 := ih (fun q hq => h q (List.mem_cons_of_mem _ hq))
    simp only [List.cons_append]
    rw [EnumWindows]
    simp only [hp.1, hp.2.1, ih2]
    simp [skippedCalls]

theorem EnumWindows_of_none_qualifies {data : ProcessPinData} {ws : List Window}
    (h : ∀ w ∈ ws, ∀ e, ¬ Qualifies data w e) :
    EnumWindows data ws = ⟨data, skippedCalls data ws, Outcome.returned ()⟩ := by
  have := EnumWindows_append_of_none_qualifies [] h
  simpa [EnumWindows] using this

theorem EnumWindows_cons_of_qualifies {data : ProcessPinData} {w : Window} {e : Element}
    (post : List Window) (h : Qualifies data w e) :
    EnumWindows data (w :: post) =
      ⟨markEntered data,
       injectionCalls data w e ++ (InvokeDialogOkButton data.pAutomation w.root).trace,
       (InvokeDialogOkButton data.pAutomation w.root).outcome.discard⟩ := by
  rw [EnumWindows]
  simp only [FindPinWindowProc_of_qualifies h]
  cases hout : (InvokeDialogOkButton data.pAutomation w.root).outcome <;>
    simp [afterInvoke, Outcome.discard]

/-- A scan either skips every window or has a first qualifying window. -/
theorem scan_cases (data : ProcessPinData) (ws : List Window) :
    (∀ w ∈ ws, ∀ e, ¬ Qualifies data w e) ∨
    ∃ pre w post e, ws = pre ++ w :: post ∧ (∀ p ∈ pre, ∀ e, ¬ Qualifies data p e) ∧
      Qualifies data w e := by
  induction ws with
  | nil => left; simp
  | cons w ws ih =>
    by_cases hw : ∃ e, Qualifies data w e
    · obtain ⟨e, he⟩ := hw
      exact Or.inr ⟨[], w, ws, e, rfl, by simp, he⟩
    · rcases ih with ih | ⟨pre, x, post, e, rfl, hpre, hx⟩
      · left
        intro y hy e he
        rcases List.mem_cons.mp hy with rfl | hy
        · exact hw ⟨e, he⟩
        · exact ih y hy e he
      · refine Or.inr ⟨w :: pre, x, post, e, rfl, ?_, hx⟩
        intro p hp e he
        rcases List.mem_cons.mp hp with rfl | hp
        · exact hw ⟨e, he⟩
        · exact hpre p hp e he

/-! ## Lemmas on the retry loop -/

theorem retryLoop_of_entered {data : ProcessPinData} (ticks : List Tick)
    (h : data.bPinEntered = true) :
    retryLoop data ticks = ⟨data, [], Outcome.returned ()⟩ := by
  cases ticks <;> simp [retryLoop, h]

theorem retryLoop_exit {data : ProcessPinData} {t : Tick} (rest : List Tick)
    (hb : data.bPinEntered = false) (ht : t.waitResult = WAIT_OBJECT_0) :
    retryLoop data (t :: rest) = ⟨data, [waitCall t], Outcome.returned ()⟩ := by
  simp [retryLoop, hb, ht, waitCall]

theorem retryLoop_data (data : ProcessPinData) (ticks : List Tick) :
    (retryLoop data ticks).data = entered data (retryLoop data ticks).trace := by
  induction ticks generalizing data with
  | nil =>
    unfold retryLoop
    split_ifs <;> simp [entered]
  | cons t rest ih =>
    unfold retryLoop
    simp only
    split_ifs with hb ht
    · simp [entered]
    · simp [entered, Event.injects]
    · have hs := EnumWindows_data data t.windows
      split
      · simp only
        rw [ih, hs, entered_entered]
        simp [entered, Event.injects]
      · rw [hs]
        simp [entered, Event.injects]
      · rw [hs]
        simp [entered, Event.injects]

theorem retryLoop_append_of_idle {data : ProcessPinData} {earlier : List Tick}
    (ticks : List Tick) (hb : data.bPinEntered = false)
    (h : ∀ t ∈ earlier, t.waitResult ≠ WAIT_OBJECT_0 ∧
      ∀ w ∈ t.windows, ∀ e, ¬ Qualifies data w e) :
    retryLoop data (earlier ++ ticks) =
      ⟨(retryLoop data ticks).data, idleCalls data earlier ++ (retryLoop data ticks).trace,
       (retryLoop data ticks).outcome⟩ := by
  induction earlier with
  | nil => simp [idleCalls]
  | cons t earlier ih =>
    obtain ⟨ht, hw⟩ := h t (List.mem_cons_self _ _)
    have ih2 := ih (fun q hq => h q (List.mem_cons_of_mem _ hq))
    simp only [List.cons_append]
    rw [retryLoop]
    simp only [hb, ht, EnumWindows_of_none_qualifies hw, ih2]
    simp [idleCalls, waitCall]

theorem retryLoop_cons_of_qualifies {data : ProcessPinData} {t : Tick} {pre post : List Window}
    {w : Window} {e : Element} (rest : List Tick)
    (hb : data.bPinEntered = false) (ht : t.waitResult ≠ WAIT_OBJECT_0)
    (hws : t.windows = pre ++ w :: post)
    (hpre : ∀ p ∈ pre, ∀ e, ¬ Qualifies data p e) (hq : Qualifies data w e) :
    retryLoop data (t :: rest) =
      ⟨markEntered data,
       waitCall t :: Event.EnumWindows :: (skippedCalls data pre ++ (injectionCalls data w e ++
         (InvokeDialogOkButton data.pAutomation w.root).trace)),
       (InvokeDialogOkButton data.pAutomation w.root).outcome.discard⟩ := by
  rw [retryLoop]
  simp only [hb, ht, hws, EnumWindows_append_of_none_qualifies _ hpre,
    EnumWindows_cons_of_qualifies post hq]
  cases hout : (InvokeDialogOkButton data.pAutomation w.root).outcome
  · simp [Outcome.discard, retryLoop_of_entered rest (show (markEntered data).bPinEntered = true
      from rfl), waitCall]
  · simp [Outcome.discard, waitCall]
  · simp [Outcome.discard, waitCall]

theorem EnterPINForProcess_eq {os : Platform} (hProcess : Process) (strPin : String)
    (h1 : SUCCEEDED os.coInitializeHr = true) (h2 : SUCCEEDED os.coCreateInstanceHr = true) :
    EnterPINForProcess os hProcess strPin =
      ⟨Event.CoInitialize os.coInitializeHr :: Event.CoCreateInstance os.coCreateInstanceHr
        :: (retryLoop (initialData os hProcess strPin) hProcess.ticks).trace
        ++ releaseCalls (retryLoop (initialData os hProcess strPin) hProcess.ticks).outcome,
       afterLoop (retryLoop (initialData os hProcess strPin) hProcess.ticks)⟩ := by
  simp [EnterPINForProcess, h1, h2]

theorem EnterPINForProcess_returns_iff (os : Platform) (hProcess : Process) (strPin : String)
    (b : Bool) (h : (EnterPINForProcess os hProcess strPin).outcome = Outcome.returned b) :
    (b = true ↔ ∃ ev ∈ (EnterPINForProcess os hProcess strPin).trace,
      ev.injects strPin = true) := by
  by_cases h1 : SUCCEEDED os.coInitializeHr = true
  · by_cases h2 : SUCCEEDED os.coCreateInstanceHr = true
    · rw [EnterPINForProcess_eq hProcess strPin h1 h2] at h ⊢
      have hd := retryLoop_data (initialData os hProcess strPin) hProcess.ticks
      simp only [afterLoop] at h
      cases hout : (retryLoop (initialData os hProcess strPin) hProcess.ticks).outcome with
      | returned u =>
        simp only [hout, Outcome.returned.injEq] at h
        have hflag : (entered (initialData os hProcess strPin)
            (retryLoop (initialData os hProcess strPin) hProcess.ticks).trace).bPinEntered =
            (retryLoop (initialData os hProcess strPin) hProcess.ticks).trace.any
              (Event.injects strPin) := by
          simp [entered, initialData]
        rw [← h, hd, hflag]
        constructor
        · intro hany
          obtain ⟨ev, hev, hinj⟩ := List.any_eq_true.mp hany
          exact ⟨ev, by simp [hev], hinj⟩
        · rintro ⟨ev, hev, hinj⟩
          apply List.any_eq_true.mpr
          simp only [releaseCalls, List.mem_cons, List.mem_append, List.mem_singleton,
            List.cons_append] at hev
          rcases hev with rfl | rfl | hev | hev
          · simp [Event.injects] at hinj
          · simp [Event.injects] at hinj
          · exact ⟨ev, hev, hinj⟩
          · simp at hev
            subst hev
            simp [Event.injects] at hinj
      | nullDeref => simp [hout] at h
      | blocked => simp [hout] at h
    · simp only [EnterPINForProcess, h1, h2, if_true, if_false, Bool.false_eq_true,
        Outcome.returned.injEq] at h ⊢
      subst h
      simp [Event.injects]
  · simp only [EnterPINForProcess, h1, if_false, Bool.false_eq_true,
      Outcome.returned.injEq] at h ⊢
    subst h
    simp [Event.injects]

theorem none_qualifies_of_no_SetValueOk {data : ProcessPinData} {ws : List Window}
    (h : ∀ ev ∈ (EnumWindows data ws).trace, ev.isSetValueOk = false) :
    ∀ w ∈ ws, ∀ e, ¬ Qualifies data w e := by
  rcases scan_cases data ws with hnone | ⟨pre, w, post, e, rfl, hpre, hq⟩
  · exact hnone
  · exfalso
    rw [EnumWindows_append_of_none_qualifies _ hpre, EnumWindows_cons_of_qualifies post hq] at h
    have := h (Event.SetValue e.runtimeId data.strPin e.setValueHr)
      (by simp [injectionCalls])
    simp [Event.isSetValueOk, hq.2.2.2.2.2.2.2] at this

theorem skippedCalls_filter_ok {data : ProcessPinData} {pre : List Window}
    (h : ∀ p ∈ pre, ∀ x, ¬ Qualifies data p x) :
    (skippedCalls data pre).filter Event.isSetValueOk = [] := by
  rw [List.filter_eq_nil_iff]
  intro ev hev
  simp only [skippedCalls, List.mem_flatMap] at hev
  obtain ⟨p, hp, hev⟩ := hev
  have hall := (FindPinWindowProc_of_not_qualifies (h p hp)).2.2
  have := List.all_eq_true.mp hall ev hev
  simp only [Bool.and_eq_true, Bool.not_eq_true'] at this
  simp [this.1]

theorem InvokeDialogOkButton_filter_ok (a : IUIAutomation) (r : RootElement) :
    (InvokeDialogOkButton a r).trace.filter Event.isSetValueOk = [] := by
  rw [List.filter_eq_nil_iff]
  intro ev hev
  have h1 := List.all_eq_true.mp (InvokeDialogOkButton_all_not_SetValue a r) ev hev
  cases ev <;> simp [Event.isSetValueOk, Event.isSetValue] at h1 ⊢

theorem InvokeDialogOkButton_filter_SetValue (a : IUIAutomation) (r : RootElement) :
    (InvokeDialogOkButton a r).trace.filter Event.isSetValue = [] := by
  rw [List.filter_eq_nil_iff]
  intro ev hev
  have h1 := List.all_eq_true.mp (InvokeDialogOkButton_all_not_SetValue a r) ev hev
  simpa using h1

theorem injectionCalls_filter_ok {data : ProcessPinData} {w : Window} {e : Element}
    (h : Qualifies data w e) :
    (injectionCalls data w e).filter Event.isSetValueOk =
      [Event.SetValue e.runtimeId data.strPin e.setValueHr] := by
  simp [injectionCalls, List.filter, Event.isSetValueOk, h.2.2.2.2.2.2.2]

theorem EnumWindows_of_first_qualifies {data : ProcessPinData} {pre : List Window} {w : Window}
    {e : Element} (post : List Window)
    (hpre : ∀ p ∈ pre, ∀ x, ¬ Qualifies data p x) (hq : Qualifies data w e) :
    EnumWindows data (pre ++ w :: post) =
      ⟨markEntered data,
       skippedCalls data pre ++ (injectionCalls data w e ++
         (InvokeDialogOkButton data.pAutomation w.root).trace),
       (InvokeDialogOkButton data.pAutomation w.root).outcome.discard⟩ := by
  rw [EnumWindows_append_of_none_qualifies _ hpre, EnumWindows_cons_of_qualifies post hq]

theorem not_qualifies_of_continue {data : ProcessPinData} {w : Window}
    (h : (FindPinWindowProc w data).outcome = Outcome.returned true) :
    ∀ e, ¬ Qualifies data w e := by
  intro e he
  rw [FindPinWindowProc_of_qualifies he] at h
  cases hout : (InvokeDialogOkButton data.pAutomation w.root).outcome <;>
    simp [afterInvoke, hout] at h

theorem none_qualifies_of_all_continue {data : ProcessPinData} {ws : List Window}
    (h : ∀ w ∈ ws, (FindPinWindowProc w data).outcome = Outcome.returned true) :
    ∀ w ∈ ws, ∀ e, ¬ Qualifies data w e :=
  fun w hw => not_qualifies_of_continue (h w hw)

theorem idle_of_all_continue {data : ProcessPinData} {ts : List Tick}
    (h : ∀ t ∈ ts, t.waitResult ≠ WAIT_OBJECT_0 ∧
      ∀ w ∈ t.windows, (FindPinWindowProc w data).outcome = Outcome.returned true) :
    ∀ t ∈ ts, t.waitResult ≠ WAIT_OBJECT_0 ∧ ∀ w ∈ t.windows, ∀ e, ¬ Qualifies data w e :=
  fun t ht => ⟨(h t ht).1, none_qualifies_of_all_continue (h t ht).2⟩

theorem searchOkButton_none_of_no_match (a : IUIAutomation) (r : RootElement)
    (h : ∀ x ∈ r.descendants, x.automationId ≠ "OkButton" ∧ x.name ≠ "OK") :
    (searchOkButton a r buttonConditions).2 = none := by
  have h1 : r.descendants.find? (fun e => e.satisfies
      (Condition.property PROPERTYID.UIA_AutomationIdPropertyId (VARIANT.bstrVal "OkButton")))
      = none := by
    rw [List.find?_eq_none]
    intro x hx
    simp [Element.satisfies, (h x hx).1]
  have h2 : r.descendants.find? (fun e => e.satisfies
      (Condition.property PROPERTYID.UIA_NamePropertyId (VARIANT.bstrVal "OK"))) = none := by
    rw [List.find?_eq_none]
    intro x hx
    simp [Element.satisfies, (h x hx).2]
  simp only [buttonConditions, searchOkButton, RootElement.FindFirst, h1, h2]
  split_ifs <;> simp

theorem EnterPINForProcess_of_first_qualifies {os : Platform} {hProcess : Process}
    {strPin : String} {earlier rest : List Tick} {t : Tick} {pre post : List Window}
    {w : Window} {e : Element} {b : Bool}
    (h1 : SUCCEEDED os.coInitializeHr = true) (h2 : SUCCEEDED os.coCreateInstanceHr = true)
    (hticks : hProcess.ticks = earlier ++ t :: rest)
    (hearlier : ∀ q ∈ earlier, q.waitResult ≠ WAIT_OBJECT_0 ∧
      ∀ x ∈ q.windows, ∀ y, ¬ Qualifies (initialData os hProcess strPin) x y)
    (ht : t.waitResult ≠ WAIT_OBJECT_0) (hws : t.windows = pre ++ w :: post)
    (hpre : ∀ p ∈ pre, ∀ x, ¬ Qualifies (initialData os hProcess strPin) p x)
    (hq : Qualifies (initialData os hProcess strPin) w e)
    (hb : (InvokeDialogOkButton os.automation w.root).outcome = Outcome.returned b) :
    EnterPINForProcess os hProcess strPin =
      ⟨Event.CoInitialize os.coInitializeHr :: Event.CoCreateInstance os.coCreateInstanceHr
        :: (idleCalls (initialData os hProcess strPin) earlier
          ++ waitCall t :: Event.EnumWindows
          :: (EnumWindows (initialData os hProcess strPin) t.windows).trace)
        ++ [Event.CoUninitialize],
       Outcome.returned true⟩ := by
  have hb2 : (InvokeDialogOkButton (initialData os hProcess strPin).pAutomation
      w.root).outcome = Outcome.returned b := hb
  rw [EnterPINForProcess_eq hProcess strPin h1 h2, hticks,
    retryLoop_append_of_idle _ rfl hearlier,
    retryLoop_cons_of_qualifies rest rfl ht hws hpre hq, hws,
    EnumWindows_of_first_qualifies post hpre hq]
  simp [hb2, Outcome.discard, releaseCalls, afterLoop, markEntered]

/-! ## C2: a scan over windows of other processes -/

theorem FindPinWindowProc_of_other_process {data : ProcessPinData} {w : Window}
    (h : w.processId ≠ data.dwProcessId) :
    FindPinWindowProc w data =
      ⟨data, [Event.GetWindowThreadProcessId w.hWnd w.processId], Outcome.returned true⟩ := by
  simp [FindPinWindowProc, h]

theorem skippedCalls_of_other_process {data : ProcessPinData} {ws : List Window}
    (h : ∀ w ∈ ws, w.processId ≠ data.dwProcessId) :
    skippedCalls data ws =
      ws.map (fun w => Event.GetWindowThreadProcessId w.hWnd w.processId) := by
  induction ws with
  | nil => simp [skippedCalls]
  | cons w ws ih =>
    have hw := h w (List.mem_cons_self _ _)
    have ih2 := ih (fun q hq => h q (List.mem_cons_of_mem _ hq))
    simp only [skippedCalls, List.flatMap_cons, List.map_cons] at ih2 ⊢
    rw [FindPinWindowProc_of_other_process hw, ih2]
    rfl

/-- C2: when no window is owned by the target process, the callback returns
TRUE (continue) on every window, the scan performs nothing but the owner
queries (so no descendant search and no value-set), it runs to the end of the
window list, and the session, its completed flag included, is unchanged. -/
theorem scan_without_target_window (data : ProcessPinData) (ws : List Window)
    (h : ∀ w ∈ ws, w.processId ≠ data.dwProcessId) :
    (∀ w ∈ ws, (FindPinWindowProc w data).outcome = Outcome.returned true) ∧
    (EnumWindows data ws).trace =
      ws.map (fun w => Event.GetWindowThreadProcessId w.hWnd w.processId) ∧
    (∀ ev ∈ (EnumWindows data ws).trace, ev.isFindFirst = false ∧ ev.isSetValue = false) ∧
    (EnumWindows data ws).outcome = Outcome.returned () ∧
    (EnumWindows data ws).data = data ∧
    (data.bPinEntered = false → (EnumWindows data ws).data.bPinEntered = false) := by
  have hq : ∀ w ∈ ws, ∀ e, ¬ Qualifies data w e := fun w hw e he => h w hw he.1
  have hscan := EnumWindows_of_none_qualifies hq
  rw [hscan, skippedCalls_of_other_process h]
  refine ⟨fun w hw => ?_, rfl, ?_, rfl, rfl, fun hb => hb⟩
  · rw [FindPinWindowProc_of_other_process (h w hw)]
  · intro ev hev
    obtain ⟨w, _, rfl⟩ := List.mem_map.mp hev
    exact ⟨rfl, rfl⟩

theorem scan_without_target_window_witness :
    (∀ w ∈ [otherWindow, otherWindow], w.processId ≠ session.dwProcessId) ∧
    (EnumWindows session [otherWindow, otherWindow]).trace =
      [Event.GetWindowThreadProcessId 200 9, Event.GetWindowThreadProcessId 200 9] ∧
    (EnumWindows session [otherWindow, otherWindow]).data.bPinEntered = false :=
  ⟨by decide,
   (scan_without_target_window session [otherWindow, otherWindow] (by decide)).2.1,
   (scan_without_target_window session [otherWindow, otherWindow] (by decide)).2.2.2.2.2 rfl⟩

/-! ## C3: the target exits before any injection -/

/-- C3: when the liveness wait reports the exit of the target and no earlier
scan achieved a successful value-set (whatever windows those scans saw), the
retry loop ends, the session is as it was set up (completed false) and
EnterPINForProcess returns false; and on every run that returns, the value
returned is true exactly when the trace holds a successful value-set of the
PIN. -/
theorem exit_before_injection :
    (∀ (os : Platform) (hProcess : Process) (strPin : String) (earlier later : List Tick)
      (exit : Tick),
      hProcess.ticks = earlier ++ exit :: later →
      exit.waitResult = WAIT_OBJECT_0 →
      (∀ t ∈ earlier, t.waitResult ≠ WAIT_OBJECT_0 ∧
        ∀ ev ∈ (EnumWindows (initialData os hProcess strPin) t.windows).trace,
          ev.isSetValueOk = false) →
      (retryLoop (initialData os hProcess strPin) hProcess.ticks).outcome =
        Outcome.returned () ∧
      (retryLoop (initialData os hProcess strPin) hProcess.ticks).data.bPinEntered = false ∧
      (EnterPINForProcess os hProcess strPin).outcome = Outcome.returned false) ∧
    (∀ (os : Platform) (hProcess : Process) (strPin : String) (b : Bool),
      (EnterPINForProcess os hProcess strPin).outcome = Outcome.returned b →
      (b = true ↔ ∃ ev ∈ (EnterPINForProcess os hProcess strPin).trace,
        ev.injects strPin = true)) := by
  refine ⟨?_, EnterPINForProcess_returns_iff⟩
  intro os hProcess strPin earlier later exit hticks hexit hearlier
  have hidle : ∀ t ∈ earlier, t.waitResult ≠ WAIT_OBJECT_0 ∧
      ∀ w ∈ t.windows, ∀ e, ¬ Qualifies (initialData os hProcess strPin) w e :=
    fun t ht => ⟨(hearlier t ht).1, none_qualifies_of_no_SetValueOk (hearlier t ht).2⟩
  have hloop : retryLoop (initialData os hProcess strPin) hProcess.ticks =
      ⟨initialData os hProcess strPin,
       idleCalls (initialData os hProcess strPin) earlier ++ [waitCall exit],
       Outcome.returned ()⟩ := by
    rw [hticks, retryLoop_append_of_idle _ rfl hidle, retryLoop_exit later rfl hexit]
  refine ⟨by rw [hloop], by rw [hloop]; rfl, ?_⟩
  unfold EnterPINForProcess
  split_ifs
  · simp only [afterLoop, hloop]
    rfl
  · rfl
  · rfl

theorem exit_before_injection_witness :
    exitingProcess.ticks =
      [⟨WAIT_TIMEOUT, [otherWindow]⟩, ⟨WAIT_TIMEOUT, [otherWindow, plainWindow]⟩]
        ++ ⟨WAIT_OBJECT_0, [pinWindow]⟩ :: [] ∧
    (EnterPINForProcess okPlatform exitingProcess "1234").outcome = Outcome.returned false ∧
    (EnterPINForProcess okPlatform promptingProcess "1234").outcome = Outcome.returned true ∧
    (true = true ↔ ∃ ev ∈ (EnterPINForProcess okPlatform promptingProcess "1234").trace,
      ev.injects "1234" = true) :=
  ⟨rfl, (exit_before_injection.1 okPlatform exitingProcess "1234"
    [⟨WAIT_TIMEOUT, [otherWindow]⟩, ⟨WAIT_TIMEOUT, [otherWindow, plainWindow]⟩] []
    ⟨WAIT_OBJECT_0, [pinWindow]⟩ rfl rfl (by decide)).2.2,
   rfl, exit_before_injection.2 okPlatform promptingProcess "1234" true rfl⟩

/-! ## C1: the scan that finds the PIN dialog -/

/-- C1 (as stated, refuted): with two PIN dialogs of the target on the desktop,
each with a password field that takes the value, the second one satisfies
every condition of the claim, yet the scan sets only the field of the first:
the only value-set of the scan is on element 1, none on the field of the
second dialog.  And a dialog of the target that exposes a password field
taking the value behind another password field that hands out no value pattern
is skipped: the scan performs no value-set and leaves completed false. -/
theorem second_pin_dialog_not_injected :
    (Qualifies session secondPinWindow secondPinEdit ∧
     secondPinWindow ∈ [pinWindow, secondPinWindow] ∧
     (EnumWindows session [pinWindow, secondPinWindow]).trace.filter Event.isSetValue =
       [Event.SetValue pinEdit.runtimeId "1234" S_OK] ∧
     Event.SetValue secondPinEdit.runtimeId "1234" S_OK ∉
       (EnumWindows session [pinWindow, secondPinWindow]).trace) ∧
    (twoFieldWindow.processId = session.dwProcessId ∧
     pinEdit ∈ twoFieldWindow.root.descendants ∧ pinEdit.isPassword = true ∧
     pinEdit.valuePatternObj = true ∧ FAILED pinEdit.setValueHr = false ∧
     (EnumWindows session [twoFieldWindow]).trace.filter Event.isSetValue = [] ∧
     (EnumWindows session [twoFieldWindow]).data.bPinEntered = false) := by
  refine ⟨⟨⟨rfl, rfl, rfl, rfl, rfl, rfl, rfl, rfl⟩, by simp, by decide, by decide⟩,
    rfl, by decide, rfl, rfl, rfl, by decide, rfl⟩

/-- C1 (amended): let w be the first window, in enumeration order, on which
every step of the callback up to the value-set succeeds (owned by the target,
root resolved, password condition created, search finding e, value pattern
obtained, value-set accepted).  Then the scan performs exactly one successful
value-set, of the PIN on e, and sets the completed flag; and when the confirm
step on w returns, the scan returns, and EnterPINForProcess, having polled
through any number of earlier scans that skipped every window, performs this
one scan, then only uninitialises COM, performing no further wait or scan, and
returns true. -/
theorem first_qualifying_window_injected :
    (∀ (data : ProcessPinData) (pre post : List Window) (w : Window) (e : Element),
      (∀ p ∈ pre, ∀ x, ¬ Qualifies data p x) → Qualifies data w e →
      (EnumWindows data (pre ++ w :: post)).trace.filter Event.isSetValueOk =
        [Event.SetValue e.runtimeId data.strPin e.setValueHr] ∧
      FAILED e.setValueHr = false ∧
      (EnumWindows data (pre ++ w :: post)).data = markEntered data ∧
      (EnumWindows data (pre ++ w :: post)).data.bPinEntered = true ∧
      ∀ b, (InvokeDialogOkButton data.pAutomation w.root).outcome = Outcome.returned b →
        (EnumWindows data (pre ++ w :: post)).outcome = Outcome.returned ()) ∧
    (∀ (os : Platform) (hProcess : Process) (strPin : String) (earlier rest : List Tick)
      (t : Tick) (pre post : List Window) (w : Window) (e : Element) (b : Bool),
      SUCCEEDED os.coInitializeHr = true → SUCCEEDED os.coCreateInstanceHr = true →
      hProcess.ticks = earlier ++ t :: rest →
      (∀ q ∈ earlier, q.waitResult ≠ WAIT_OBJECT_0 ∧
        ∀ x ∈ q.windows, ∀ y, ¬ Qualifies (initialData os hProcess strPin) x y) →
      t.waitResult ≠ WAIT_OBJECT_0 → t.windows = pre ++ w :: post →
      (∀ p ∈ pre, ∀ x, ¬ Qualifies (initialData os hProcess strPin) p x) →
      Qualifies (initialData os hProcess strPin) w e →
      (InvokeDialogOkButton os.automation w.root).outcome = Outcome.returned b →
      EnterPINForProcess os hProcess strPin =
        ⟨Event.CoInitialize os.coInitializeHr :: Event.CoCreateInstance os.coCreateInstanceHr
          :: (idleCalls (initialData os hProcess strPin) earlier
            ++ waitCall t :: Event.EnumWindows
            :: (EnumWindows (initialData os hProcess strPin) t.windows).trace)
          ++ [Event.CoUninitialize],
         Outcome.returned true⟩) := by
  constructor
  · intro data pre post w e hpre hq
    rw [EnumWindows_of_first_qualifies post hpre hq]
    refine ⟨?_, hq.2.2.2.2.2.2.2, rfl, rfl, ?_⟩
    · simp only [List.filter_append, skippedCalls_filter_ok hpre, injectionCalls_filter_ok hq,
        InvokeDialogOkButton_filter_ok, List.nil_append, List.append_nil]
    · intro b hb
      simp [hb, Outcome.discard]
  · intro os hProcess strPin earlier rest t pre post w e b h1 h2 hticks hearlier ht hws hpre hq hb
    exact EnterPINForProcess_of_first_qualifies h1 h2 hticks hearlier ht hws hpre hq hb

theorem first_qualifying_window_injected_witness :
    Qualifies (initialData okPlatform promptingProcess "1234") pinWindow pinEdit ∧
    (EnumWindows session ([otherWindow, plainWindow] ++ pinWindow :: [secondPinWindow])).trace.filter
      Event.isSetValueOk = [Event.SetValue pinEdit.runtimeId session.strPin pinEdit.setValueHr] ∧
    (EnterPINForProcess okPlatform promptingProcess "1234").outcome = Outcome.returned true :=
  ⟨⟨rfl, rfl, rfl, rfl, rfl, rfl, rfl, rfl⟩,
   (first_qualifying_window_injected.1 session [otherWindow, plainWindow] [secondPinWindow]
     pinWindow pinEdit (none_qualifies_of_all_continue (by decide))
     ⟨rfl, rfl, rfl, rfl, rfl, rfl, rfl, rfl⟩).1,
   congrArg Run.outcome (first_qualifying_window_injected.2 okPlatform promptingProcess "1234"
     [⟨WAIT_TIMEOUT, [otherWindow, plainWindow]⟩] [⟨WAIT_TIMEOUT, [pinWindow]⟩]
     ⟨WAIT_TIMEOUT, [otherWindow, pinWindow]⟩ [otherWindow] [] pinWindow pinEdit true
     rfl rfl rfl (idle_of_all_continue (by decide)) (by decide) rfl
     (none_qualifies_of_all_continue (by decide))
     ⟨rfl, rfl, rfl, rfl, rfl, rfl, rfl, rfl⟩ rfl)⟩

/-! ## C5: a session that is already completed -/

/-- C5 (as stated, refuted): the callback does not read the completed flag.
Run over the windows with the flag already true, it sets the value of the
password field again. -/
theorem completed_session_scan_sets_value :
    enteredSession.bPinEntered = true ∧
    Event.SetValue pinEdit.runtimeId "1234" S_OK ∈
      (FindPinWindowProc pinWindow enteredSession).trace ∧
    (EnumWindows enteredSession [otherWindow, pinWindow]).trace.filter Event.isSetValue =
      [Event.SetValue pinEdit.runtimeId "1234" S_OK] := by
  refine ⟨rfl, by decide, by decide⟩

/-- C5 (amended): for a session whose completed flag is already true, the retry
loop (lines 206-208) leaves at once: it performs no wait and no scan, hence no
value-set, and the session is unchanged; and the callback and the enumeration,
run on such a session, never reset the flag. -/
theorem completed_session_not_rescanned (data : ProcessPinData)
    (h : data.bPinEntered = true) :
    (∀ ticks, retryLoop data ticks = ⟨data, [], Outcome.returned ()⟩) ∧
    (∀ w, (FindPinWindowProc w data).data.bPinEntered = true) ∧
    (∀ ws, (EnumWindows data ws).data.bPinEntered = true) := by
  refine ⟨fun ticks => retryLoop_of_entered ticks h, fun w => ?_, fun ws => ?_⟩
  · rw [FindPinWindowProc_data]
    simp [entered, h]
  · rw [EnumWindows_data]
    simp [entered, h]

theorem completed_session_not_rescanned_witness :
    enteredSession.bPinEntered = true ∧
    (retryLoop enteredSession promptingProcess.ticks).trace = [] ∧
    (EnumWindows enteredSession [pinWindow]).data.bPinEntered = true :=
  ⟨rfl,
   congrArg CallbackRun.trace
     ((completed_session_not_rescanned enteredSession rfl).1 promptingProcess.ticks),
   (completed_session_not_rescanned enteredSession rfl).2.2 [pinWindow]⟩

/-! ## C6: the callback after the value-set, whatever the confirm step does -/

/-- What holds when the confirm step returns: on a target-owned window on which the value-set
of the PIN succeeds, if InvokeDialogOkButton returns a value, then the callback
sets the completed flag and returns FALSE, and the value-set of the PIN is the
only value-set of the callback.  InvokeDialogOkButton returns false when no
descendant matches either candidate, when the invoke pattern query fails with
an error code and when the invocation fails.  In a run of EnterPINForProcess
whose scan reaches such a window first, the function then returns true. -/
theorem callback_result_when_confirm_returns :
    (∀ (data : ProcessPinData) (w : Window) (e : Element) (b : Bool),
      Qualifies data w e →
      (InvokeDialogOkButton data.pAutomation w.root).outcome = Outcome.returned b →
      (FindPinWindowProc w data).outcome = Outcome.returned false ∧
      (FindPinWindowProc w data).data = markEntered data ∧
      (FindPinWindowProc w data).data.bPinEntered = true ∧
      (FindPinWindowProc w data).trace.filter Event.isSetValue =
        [Event.SetValue e.runtimeId data.strPin e.setValueHr] ∧
      FAILED e.setValueHr = false) ∧
    (∀ (a : IUIAutomation) (r : RootElement),
      ((∀ x ∈ r.descendants, x.automationId ≠ "OkButton" ∧ x.name ≠ "OK") →
        (InvokeDialogOkButton a r).outcome = Outcome.returned false) ∧
      (∀ btn, (searchOkButton a r buttonConditions).2 = some btn →
        (FAILED btn.invokePatternHr = true ∨
          (btn.invokePatternObj = true ∧ FAILED btn.invokeHr = true)) →
        (InvokeDialogOkButton a r).outcome = Outcome.returned false)) ∧
    (∀ (os : Platform) (hProcess : Process) (strPin : String) (earlier rest : List Tick)
      (t : Tick) (pre post : List Window) (w : Window) (e : Element) (b : Bool),
      SUCCEEDED os.coInitializeHr = true → SUCCEEDED os.coCreateInstanceHr = true →
      hProcess.ticks = earlier ++ t :: rest →
      (∀ q ∈ earlier, q.waitResult ≠ WAIT_OBJECT_0 ∧
        ∀ x ∈ q.windows, ∀ y, ¬ Qualifies (initialData os hProcess strPin) x y) →
      t.waitResult ≠ WAIT_OBJECT_0 → t.windows = pre ++ w :: post →
      (∀ p ∈ pre, ∀ x, ¬ Qualifies (initialData os hProcess strPin) p x) →
      Qualifies (initialData os hProcess strPin) w e →
      (InvokeDialogOkButton os.automation w.root).outcome = Outcome.returned b →
      (EnterPINForProcess os hProcess strPin).outcome = Outcome.returned true) := by
  refine ⟨?_, ?_, ?_⟩
  · intro data w e b hq hb
    rw [FindPinWindowProc_of_qualifies hq]
    refine ⟨by simp [hb, afterInvoke], rfl, rfl, ?_, hq.2.2.2.2.2.2.2⟩
    simp [List.filter_append, InvokeDialogOkButton_filter_SetValue, injectionCalls,
      List.filter, Event.isSetValue]
  · intro a r
    constructor
    · intro h
      simp [InvokeDialogOkButton, searchOkButton_none_of_no_match a r h]
    · intro btn hbtn hfail
      simp only [InvokeDialogOkButton, hbtn, invokeButton]
      rcases hfail with hp | ⟨ho, hi⟩
      · simp [hp]
      · split_ifs <;> simp_all
  · intro os hProcess strPin earlier rest t pre post w e b h1 h2 hticks hearlier ht hws hpre hq hb
    rw [EnterPINForProcess_of_first_qualifies h1 h2 hticks hearlier ht hws hpre hq hb]

theorem callback_result_when_confirm_returns_example :
    Qualifies session bareWindow pinEdit ∧
    (InvokeDialogOkButton session.pAutomation bareWindow.root).outcome = Outcome.returned false ∧
    (InvokeDialogOkButton okProvider (okRoot 15 [pinEdit, brokenButton])).outcome =
      Outcome.returned false ∧
    (FindPinWindowProc bareWindow session).outcome = Outcome.returned false ∧
    (FindPinWindowProc bareWindow session).data.bPinEntered = true ∧
    (EnterPINForProcess okPlatform bareProcess "1234").outcome = Outcome.returned true :=
  ⟨⟨rfl, rfl, rfl, rfl, rfl, rfl, rfl, rfl⟩,
   (callback_result_when_confirm_returns.2.1 okProvider bareWindow.root).1 (by decide),
   (callback_result_when_confirm_returns.2.1 okProvider (okRoot 15 [pinEdit, brokenButton])).2
     brokenButton rfl (Or.inl rfl),
   (callback_result_when_confirm_returns.1 session bareWindow pinEdit false
     ⟨rfl, rfl, rfl, rfl, rfl, rfl, rfl, rfl⟩ rfl).1,
   (callback_result_when_confirm_returns.1 session bareWindow pinEdit false
     ⟨rfl, rfl, rfl, rfl, rfl, rfl, rfl, rfl⟩ rfl).2.2.1,
   callback_result_when_confirm_returns.2.2 okPlatform bareProcess "1234" [] []
     ⟨WAIT_TIMEOUT, [otherWindow, bareWindow]⟩ [otherWindow] [] bareWindow pinEdit false
     rfl rfl rfl (idle_of_all_continue (by decide)) (by decide) rfl
     (none_qualifies_of_all_continue (by decide))
     ⟨rfl, rfl, rfl, rfl, rfl, rfl, rfl, rfl⟩ rfl⟩

/-- C6 (the code at the failing input): the PIN dialog of the target holds a
password field that takes the value and an element with automation id OkButton
whose invoke-pattern query succeeds without storing a pattern (the control
lacks the invoke pattern).  The value-set of the PIN succeeds and completed is
set to true, but the callback does not return FALSE and EnterPINForProcess does
not return true: the confirm step calls through the null pattern pointer, so
neither function returns. -/
theorem confirm_without_pattern_never_returns :
    Qualifies session staticOkWindow pinEdit ∧
    (FindPinWindowProc staticOkWindow session).trace.filter Event.isSetValueOk =
      [Event.SetValue pinEdit.runtimeId "1234" S_OK] ∧
    (FindPinWindowProc staticOkWindow session).data.bPinEntered = true ∧
    (FindPinWindowProc staticOkWindow session).outcome ≠ Outcome.returned false ∧
    (FindPinWindowProc staticOkWindow session).outcome = Outcome.nullDeref ∧
    (EnumWindows session [otherWindow, staticOkWindow]).outcome = Outcome.nullDeref ∧
    (EnterPINForProcess okPlatform ⟨7, [⟨WAIT_TIMEOUT, [otherWindow, staticOkWindow]⟩]⟩
      "1234").outcome ≠ Outcome.returned true ∧
    (EnterPINForProcess okPlatform ⟨7, [⟨WAIT_TIMEOUT, [otherWindow, staticOkWindow]⟩]⟩
      "1234").outcome = Outcome.nullDeref := by
  refine ⟨⟨rfl, rfl, rfl, rfl, rfl, rfl, rfl, rfl⟩, by decide, rfl, by decide, rfl, rfl,
    by decide, rfl⟩

/-! ## C9: several windows of the target in one scan -/

/-- C9 (as stated, refuted): the target owns three windows, in this order: one
without a password field, one whose password field hands out no value pattern,
and one whose password field takes the value.  The first window that has a
password field is the second one, yet the only value-set of the scan is on the
field of the third; and the password search is performed on both earlier
windows of the target. -/
theorem later_window_injected_after_skips :
    plainWindow.processId = session.dwProcessId ∧
    lockedPinWindow.processId = session.dwProcessId ∧
    plainWindow.root.descendants.find? (fun x => x.isPassword) = none ∧
    lockedPinWindow.root.descendants.find? (fun x => x.isPassword) = some lockedPinEdit ∧
    (EnumWindows session [plainWindow, lockedPinWindow, pinWindow]).trace.filter
      Event.isSetValue = [Event.SetValue pinEdit.runtimeId "1234" S_OK] ∧
    Event.FindFirst plainWindow.root.runtimeId passwordCondition S_OK none ∈
      (EnumWindows session [plainWindow, lockedPinWindow, pinWindow]).trace ∧
    Event.FindFirst lockedPinWindow.root.runtimeId passwordCondition S_OK
      (some lockedPinEdit.runtimeId) ∈
      (EnumWindows session [plainWindow, lockedPinWindow, pinWindow]).trace := by
  refine ⟨rfl, rfl, rfl, rfl, by decide, by decide, by decide⟩

theorem FindPinWindowProc_searches {data : ProcessPinData} {p : Window}
    (h1 : p.processId = data.dwProcessId) (h2 : FAILED p.elementFromHandleHr = false)
    (h3 : FAILED (data.pAutomation.createPropertyConditionHr
      PROPERTYID.UIA_IsPasswordPropertyId (VARIANT.boolVal true)) = false) :
    Event.FindFirst p.root.runtimeId passwordCondition (p.root.findFirstHr passwordCondition)
      ((p.root.FindFirst passwordCondition).map Element.runtimeId) ∈
      (FindPinWindowProc p data).trace := by
  unfold FindPinWindowProc
  simp only [h1, h2, h3, ne_eq, not_true_eq_false, if_false, Bool.false_eq_true]
  split_ifs
  · simp
  · split
    · simp
    · split_ifs <;> simp

theorem FindPinWindowProc_no_search {data : ProcessPinData} {p : Window}
    (h : p.processId ≠ data.dwProcessId ∨ FAILED p.elementFromHandleHr = true ∨
      FAILED (data.pAutomation.createPropertyConditionHr
        PROPERTYID.UIA_IsPasswordPropertyId (VARIANT.boolVal true)) = true) :
    ∀ ev ∈ (FindPinWindowProc p data).trace, ev.isFindFirst = false := by
  intro ev hev
  unfold FindPinWindowProc at hev
  simp only at hev
  by_cases h1 : p.processId = data.dwProcessId
  · by_cases h2 : FAILED p.elementFromHandleHr = true
    · simp [h1, h2] at hev
      rcases hev with rfl | rfl <;> rfl
    · have h3 : FAILED (data.pAutomation.createPropertyConditionHr
          PROPERTYID.UIA_IsPasswordPropertyId (VARIANT.boolVal true)) = true := by
        rcases h with h | h | h
        · exact absurd h1 h
        · exact absurd h h2
        · exact h
      simp [h1, h2, h3] at hev
      rcases hev with rfl | rfl | rfl <;> rfl
  · simp [h1] at hev
    subst hev
    rfl

/-- C9 (amended): the window acted on is the first one, in enumeration order,
on which every step of the callback up to the value-set succeeds.  The PIN is
set on the first password descendant e of that window, the confirm step runs
on that window, and the trace of the scan is the calls on the earlier windows
followed by the calls on that window; the scan is the same whatever windows
follow it (the callback is not run on them).  On every earlier window the
callback returns TRUE and performs no successful value-set and no step of the
confirm stage.  An earlier window is searched for a password field exactly
when it is owned by the target and the root resolution and the creation of the
password condition succeed on it: then the search is in the trace of the scan,
otherwise the callback performs no search on that window. -/
theorem first_qualifying_window_wins (data : ProcessPinData) (pre post : List Window)
    (w : Window) (e : Element)
    (hpre : ∀ p ∈ pre, ∀ x, ¬ Qualifies data p x) (hq : Qualifies data w e) :
    (EnumWindows data (pre ++ w :: post)).trace =
      skippedCalls data pre ++ (FindPinWindowProc w data).trace ∧
    (FindPinWindowProc w data).trace =
      injectionCalls data w e ++ (InvokeDialogOkButton data.pAutomation w.root).trace ∧
    (e ∈ w.root.descendants ∧ e.isPassword = true ∧ FAILED e.setValueHr = false) ∧
    EnumWindows data (pre ++ w :: post) = EnumWindows data (pre ++ [w]) ∧
    (∀ p ∈ pre, (FindPinWindowProc p data).outcome = Outcome.returned true ∧
      ∀ ev ∈ (FindPinWindowProc p data).trace,
        ev.isSetValueOk = false ∧ ev.isConfirmCall = false) ∧
    (∀ p ∈ pre, p.processId = data.dwProcessId → FAILED p.elementFromHandleHr = false →
      FAILED (data.pAutomation.createPropertyConditionHr
        PROPERTYID.UIA_IsPasswordPropertyId (VARIANT.boolVal true)) = false →
      Event.FindFirst p.root.runtimeId passwordCondition (p.root.findFirstHr passwordCondition)
          ((p.root.FindFirst passwordCondition).map Element.runtimeId) ∈
        (FindPinWindowProc p data).trace ∧
      Event.FindFirst p.root.runtimeId passwordCondition (p.root.findFirstHr passwordCondition)
          ((p.root.FindFirst passwordCondition).map Element.runtimeId) ∈
        (EnumWindows data (pre ++ w :: post)).trace) ∧
    (∀ p ∈ pre, (p.processId ≠ data.dwProcessId ∨ FAILED p.elementFromHandleHr = true ∨
        FAILED (data.pAutomation.createPropertyConditionHr
          PROPERTYID.UIA_IsPasswordPropertyId (VARIANT.boolVal true)) = true) →
      ∀ ev ∈ (FindPinWindowProc p data).trace, ev.isFindFirst = false) := by
  have htrace : (EnumWindows data (pre ++ w :: post)).trace =
      skippedCalls data pre ++ (FindPinWindowProc w data).trace := by
    rw [EnumWindows_of_first_qualifies post hpre hq, FindPinWindowProc_of_qualifies hq]
  refine ⟨htrace, FindPinWindowProc_of_qualifies hq ▸ rfl, ⟨?_, ?_, hq.2.2.2.2.2.2.2⟩, ?_, ?_,
    ?_, ?_⟩
  · exact List.mem_of_find?_eq_some hq.2.2.2.2.1
  · have := List.find?_some hq.2.2.2.2.1
    simpa [Element.satisfies, passwordCondition] using this
  · rw [EnumWindows_of_first_qualifies post hpre hq, EnumWindows_of_first_qualifies [] hpre hq]
  · intro p hp
    obtain ⟨ho, _, hall⟩ := FindPinWindowProc_of_not_qualifies (hpre p hp)
    refine ⟨ho, fun ev hev => ?_⟩
    have := List.all_eq_true.mp hall ev hev
    simpa using this
  · intro p hp h1 h2 h3
    have hmem := FindPinWindowProc_searches h1 h2 h3
    refine ⟨hmem, ?_⟩
    rw [htrace]
    apply List.mem_append_left
    simp only [skippedCalls, List.mem_flatMap]
    exact ⟨p, hp, hmem⟩
  · intro p _ h
    exact FindPinWindowProc_no_search h

theorem first_qualifying_window_wins_witness :
    Qualifies session pinWindow pinEdit ∧
    (EnumWindows session ([plainWindow, lockedPinWindow] ++ pinWindow :: [secondPinWindow])).trace =
      skippedCalls session [plainWindow, lockedPinWindow] ++
        (FindPinWindowProc pinWindow session).trace ∧
    Event.FindFirst plainWindow.root.runtimeId passwordCondition
        (plainWindow.root.findFirstHr passwordCondition)
        ((plainWindow.root.FindFirst passwordCondition).map Element.runtimeId) ∈
      (EnumWindows session
        ([plainWindow, lockedPinWindow] ++ pinWindow :: [secondPinWindow])).trace :=
  ⟨⟨rfl, rfl, rfl, rfl, rfl, rfl, rfl, rfl⟩,
   (first_qualifying_window_wins session [plainWindow, lockedPinWindow] [secondPinWindow]
     pinWindow pinEdit (none_qualifies_of_all_continue (by decide))
     ⟨rfl, rfl, rfl, rfl, rfl, rfl, rfl, rfl⟩).1,
   ((first_qualifying_window_wins session [plainWindow, lockedPinWindow] [secondPinWindow]
     pinWindow pinEdit (none_qualifies_of_all_continue (by decide))
     ⟨rfl, rfl, rfl, rfl, rfl, rfl, rfl, rfl⟩).2.2.2.2.2.1 plainWindow (List.mem_cons_self _ _)
     rfl rfl rfl).2⟩

/-! ## C10: the outcome of the confirm step when a control is found -/

theorem InvokeDialogOkButton_true_iff (a : IUIAutomation) (r : RootElement) :
    (InvokeDialogOkButton a r).outcome = Outcome.returned true ↔
      ∃ btn, (searchOkButton a r buttonConditions).2 = some btn ∧
        FAILED btn.invokePatternHr = false ∧ btn.invokePatternObj = true ∧
        FAILED btn.invokeHr = false := by
  unfold InvokeDialogOkButton
  simp only
  split
  · rename_i h
    simp [h]
  · rename_i btn h
    simp only [h, Option.some.injEq, exists_eq_left', invokeButton]
    split_ifs <;> simp_all

/-- C10 (the code at the failing input): the dialog holds a password field and
an element with automation id OkButton whose invoke-pattern query succeeds
without storing a pattern.  InvokeDialogOkButton finds the element, queries the
pattern, prints no capability-missing message and goes on to call Invoke
through the null pattern pointer instead of returning false; the callback and
EnterPINForProcess, which run it after the value-set, do not return either. -/
theorem missing_invoke_pattern_dereferenced :
    FAILED staticOk.invokePatternHr = false ∧ staticOk.invokePatternObj = false ∧
    (InvokeDialogOkButton okProvider staticOkWindow.root).outcome = Outcome.nullDeref ∧
    (InvokeDialogOkButton okProvider staticOkWindow.root).trace =
      [Event.CreatePropertyCondition PROPERTYID.UIA_AutomationIdPropertyId
         (VARIANT.bstrVal "OkButton") S_OK,
       Event.FindFirst 40
         (Condition.property PROPERTYID.UIA_AutomationIdPropertyId (VARIANT.bstrVal "OkButton"))
         S_OK (some 7),
       Event.GetCurrentPattern 7 PATTERNID.UIA_InvokePatternId S_OK] ∧
    (InvokeDialogOkButton okProvider staticOkWindow.root).trace.filterMap Event.cerr? = [] ∧
    (FindPinWindowProc staticOkWindow session).outcome = Outcome.nullDeref ∧
    (EnterPINForProcess okPlatform ⟨7, [⟨WAIT_TIMEOUT, [staticOkWindow]⟩, ⟨WAIT_OBJECT_0, []⟩]⟩
      "1234").outcome = Outcome.nullDeref := by
  refine ⟨rfl, rfl, rfl, by decide, by decide, rfl, rfl⟩

/-! ## C7: the listing printed when no OK button is found -/

theorem searchOkButton_prints_nothing (a : IUIAutomation) (r : RootElement)
    (cs : List (String × PROPERTYID)) :
    (searchOkButton a r cs).1.filterMap Event.printed? = [] := by
  induction cs with
  | nil => simp [searchOkButton]
  | cons v rest ih =>
    unfold searchOkButton
    simp only
    split_ifs
    · simpa [Event.printed?] using ih
    · simpa [Event.printed?] using ih
    · split
      · simp [Event.printed?]
      · simpa [Event.printed?] using ih

theorem outputElement_printed (r : RootElement) (i : Nat) :
    (outputElement r i).filterMap Event.printed? =
      if FAILED (r.getElementHr i) then []
      else match r.descendants[i]? with
        | some e => [elementLine e]
        | none => [] := by
  unfold outputElement
  split_ifs
  · simp [Event.printed?]
  · split <;> simp [Event.printed?]

theorem range_flatMap_printed (r : RootElement) :
    ∀ (ds : List Element) (k : Nat), (∀ j, j < ds.length → r.descendants[k + j]? = ds[j]?) →
      ((List.range' k ds.length).flatMap (outputElement r)).filterMap Event.printed? =
        listing r.getElementHr k ds := by
  intro ds
  induction ds with
  | nil => intro k _; simp [listing]
  | cons e es ih =>
    intro k h
    have h0 : r.descendants[k]? = some e := by simpa using h 0 (by simp)
    have ih2 := ih (k + 1) (fun j hj => by
      have := h (j + 1) (by simpa using hj)
      simpa [Nat.add_assoc, Nat.add_comm 1 j] using this)
    simp only [List.length_cons, List.range'_succ, List.flatMap_cons, List.filterMap_append,
      outputElement_printed, h0, ih2, listing]
    split_ifs <;> simp

theorem OutputElementChildrenInfo_printed (a : IUIAutomation) (r : RootElement)
    (h1 : FAILED a.createTrueConditionHr = false) (h2 : FAILED r.findAllHr = false)
    (h3 : FAILED r.getLengthHr = false) :
    (OutputElementChildrenInfo a r).filterMap Event.printed? =
      listing r.getElementHr 0 r.descendants := by
  have := range_flatMap_printed r r.descendants 0 (fun j _ => by simp)
  simp only [OutputElementChildrenInfo, h1, h2, h3, Bool.false_eq_true, if_false,
    List.filterMap_append, List.range_eq_range', this]
  simp [Event.printed?]

theorem listing_of_all_retrieved (hr : Nat → HRESULT) (h : ∀ i, FAILED (hr i) = false) :
    ∀ (es : List Element) (k : Nat), listing hr k es = es.map elementLine := by
  intro es
  induction es with
  | nil => intro k; rfl
  | cons e es ih => intro k; simp [listing, h k, ih (k + 1)]

/-- C7 (as stated, refuted): the dialog has two descendants and no OK button,
and `FindAll` fails on it.  InvokeDialogOkButton returns false and the only
line printed, on any stream, is the header: no line for either descendant. -/
theorem no_listing_when_FindAll_fails :
    unlistableRoot.descendants = [promptLabel, pinEdit] ∧
    (searchOkButton okProvider unlistableRoot buttonConditions).2 = none ∧
    (InvokeDialogOkButton okProvider unlistableRoot).outcome = Outcome.returned false ∧
    (InvokeDialogOkButton okProvider unlistableRoot).trace.filterMap Event.printed? =
      [okButtonNotFound] := by
  refine ⟨rfl, rfl, rfl, by decide⟩

/-- C7 (amended): when the search yields no element for either candidate,
InvokeDialogOkButton returns false and prints the not-found header on the
error stream, before any other line.  What follows the header is the output of
OutputElementChildrenInfo; when creating the match-everything condition,
`FindAll` and `get_Length` succeed, that output is one line per descendant
whose retrieval succeeds, in tree order, each of the form
`  id='<id>' name='<name>'` with that element's automation id and name, hence
one line per descendant when every retrieval succeeds. -/
theorem listing_printed_when_no_button (a : IUIAutomation) (r : RootElement)
    (hnone : (searchOkButton a r buttonConditions).2 = none) :
    (InvokeDialogOkButton a r).outcome = Outcome.returned false ∧
    (InvokeDialogOkButton a r).trace =
      (searchOkButton a r buttonConditions).1 ++ [Event.cerr okButtonNotFound]
        ++ OutputElementChildrenInfo a r ∧
    (InvokeDialogOkButton a r).trace.filterMap Event.printed? =
      okButtonNotFound :: (OutputElementChildrenInfo a r).filterMap Event.printed? ∧
    (FAILED a.createTrueConditionHr = false → FAILED r.findAllHr = false →
      FAILED r.getLengthHr = false →
      (InvokeDialogOkButton a r).trace.filterMap Event.printed? =
        okButtonNotFound :: listing r.getElementHr 0 r.descendants ∧
      ((∀ i, FAILED (r.getElementHr i) = false) →
        (InvokeDialogOkButton a r).trace.filterMap Event.printed? =
          okButtonNotFound :: r.descendants.map elementLine)) := by
  have htrace : (InvokeDialogOkButton a r).trace =
      (searchOkButton a r buttonConditions).1 ++ [Event.cerr okButtonNotFound]
        ++ OutputElementChildrenInfo a r := by
    simp [InvokeDialogOkButton, hnone, okButtonNotFound]
  have hprinted : (InvokeDialogOkButton a r).trace.filterMap Event.printed? =
      okButtonNotFound :: (OutputElementChildrenInfo a r).filterMap Event.printed? := by
    rw [htrace]
    simp [List.filterMap_append, searchOkButton_prints_nothing, Event.printed?]
  refine ⟨by simp [InvokeDialogOkButton, hnone], htrace, hprinted, ?_⟩
  intro h1 h2 h3
  rw [hprinted, OutputElementChildrenInfo_printed a r h1 h2 h3]
  exact ⟨rfl, fun h => by rw [listing_of_all_retrieved _ h]⟩

theorem listing_printed_when_no_button_witness :
    (searchOkButton okProvider bareWindow.root buttonConditions).2 = none ∧
    (InvokeDialogOkButton okProvider bareWindow.root).trace.filterMap Event.printed? =
      okButtonNotFound :: bareWindow.root.descendants.map elementLine :=
  ⟨rfl, ((listing_printed_when_no_button okProvider bareWindow.root rfl).2.2.2 rfl rfl rfl).2
    (fun _ => rfl)⟩

/-! ## C4: priority among the candidate conditions -/

theorem toInt32_mod (d : Nat) (h : d < 4294967296) :
    toInt32 d % 4294967296 = (d : Int) := by
  unfold toInt32
  rw [Nat.mod_eq_of_lt h]
  split_ifs <;> omega

theorem toInt32_of_small (d : Nat) (h : d < 2147483648) : toInt32 d = (d : Int) := by
  unfold toInt32
  rw [Nat.mod_eq_of_lt (by omega)]
  simp [h]

theorem wmain_of_created (env : MainEnv) (hargs : 3 ≤ env.wargv.length)
    (hc : env.bCreated = true) (hx : env.exits = true) (b : Bool)
    (h : (EnterPINForProcess env.os env.process (env.wargv.getD 1 "")).outcome =
      Outcome.returned b) :
    (wmain env).outcome = Outcome.returned (toInt32 env.exitCode) := by
  unfold wmain
  rw [if_neg (Nat.not_lt.mpr hargs)]
  simp only [hc, Bool.not_true, Bool.false_eq_true, if_false, h, hx, if_true]

/-- C8: in an execution with at least the two required arguments, when the
process is created and the final wait returns, wmain returns the exit code of
the target (converted from DWORD to int, the same 32-bit value) whatever
EnterPINForProcess returned: after an injection, after the target exited
before any injection, and when COM initialisation or the creation of the
provider failed; when the process is not created, wmain returns 1. -/
theorem wmain_returns_exit_code (env : MainEnv) (hargs : 3 ≤ env.wargv.length) :
    (env.bCreated = true → env.exits = true →
      (∀ b, (EnterPINForProcess env.os env.process (env.wargv.getD 1 "")).outcome =
          Outcome.returned b →
        (wmain env).outcome = Outcome.returned (toInt32 env.exitCode)) ∧
      (SUCCEEDED env.os.coInitializeHr = false →
        (wmain env).outcome = Outcome.returned (toInt32 env.exitCode)) ∧
      (SUCCEEDED env.os.coCreateInstanceHr = false →
        (wmain env).outcome = Outcome.returned (toInt32 env.exitCode))) ∧
    (env.exitCode < 4294967296 → toInt32 env.exitCode % 4294967296 = (env.exitCode : Int)) ∧
    (env.exitCode < 2147483648 → toInt32 env.exitCode = (env.exitCode : Int)) ∧
    (env.bCreated = false →
      (wmain env).outcome = Outcome.returned 1 ∧
      (wmain env).trace = [Event.CreateProcessW (commandLine env.wargv) false,
        Event.cerr ("Could not create process: " ++ toString env.lastError)]) := by
  refine ⟨fun hc hx => ⟨fun b h => wmain_of_created env hargs hc hx b h, fun h1 => ?_,
    fun h2 => ?_⟩, toInt32_mod _, toInt32_of_small _, fun hc => ?_⟩
  · apply wmain_of_created env hargs hc hx false
    simp [EnterPINForProcess, h1]
  · apply wmain_of_created env hargs hc hx false
    unfold EnterPINForProcess
    split_ifs <;> simp_all
  · unfold wmain
    rw [if_neg (Nat.not_lt.mpr hargs)]
    simp [hc]

theorem wmain_returns_exit_code_witness :
    3 ≤ promptingRun.wargv.length ∧
    (EnterPINForProcess promptingRun.os promptingRun.process
      (promptingRun.wargv.getD 1 "")).outcome = Outcome.returned true ∧
    (wmain promptingRun).outcome = Outcome.returned 3 ∧
    (wmain failedLaunch).outcome = Outcome.returned 1 :=
  ⟨by decide, rfl,
   ((wmain_returns_exit_code promptingRun (by decide)).1 rfl rfl).1 true rfl,
   ((wmain_returns_exit_code failedLaunch (by decide)).2.2.2 rfl).1⟩

end Autopin
